import Mathlib

/-!
Verification of the Chimera error-translation layer of `rust-hyperscan`
(`src/hyperscan/src/chimera/errors.rs`), as a shallow embedding.

Raw engine status codes (`ffi::ch_error_t`, a C `int`) are modelled as `Int`.
Foreign pointers to `ch_compile_error_t` records are modelled as `Nat`, with
`0` playing the role of the null pointer; the contents a pointer refers to are
supplied by an explicit heap function `Nat → ch_compile_error_t`.
-/

namespace Chimera

/-- Raw status code type of the Chimera engine (`ffi::ch_error_t`, a C int). -/
abbrev ch_error_t : Type := Int

/-- Engine status constant `CH_SUCCESS` (value from the engine header `ch.h`,
referenced by `errors.rs` through the generated `ffi` bindings). -/
def CH_SUCCESS : ch_error_t := 0

/-- Engine status constant `CH_INVALID`. -/
def CH_INVALID : ch_error_t := -1

/-- Engine status constant `CH_NOMEM`. -/
def CH_NOMEM : ch_error_t := -2

/-- Engine status constant `CH_SCAN_TERMINATED`. -/
def CH_SCAN_TERMINATED : ch_error_t := -3

/-- Engine status constant `CH_COMPILER_ERROR`, the reserved compiler-error
sentinel consumed by `AsCompileResult::ok_or`. -/
def CH_COMPILER_ERROR : ch_error_t := -4

/-- Engine status constant `CH_DB_VERSION_ERROR`. -/
def CH_DB_VERSION_ERROR : ch_error_t := -5

/-- Engine status constant `CH_DB_PLATFORM_ERROR`. -/
def CH_DB_PLATFORM_ERROR : ch_error_t := -6

/-- Engine status constant `CH_DB_MODE_ERROR`. -/
def CH_DB_MODE_ERROR : ch_error_t := -7

/-- Engine status constant `CH_BAD_ALIGN`. -/
def CH_BAD_ALIGN : ch_error_t := -8

/-- Engine status constant `CH_BAD_ALLOC`. -/
def CH_BAD_ALLOC : ch_error_t := -9

/-- Engine status constant `CH_SCRATCH_IN_USE`. -/
def CH_SCRATCH_IN_USE : ch_error_t := -10

/-- Engine status constant `CH_FAIL_INTERNAL`. -/
def CH_FAIL_INTERNAL : ch_error_t := -32

/-- Contents of a foreign `ffi::ch_compile_error_t` diagnostic record: a
message string (`message` field, a C string in the engine) and the raw
`expression` field (a C int; negative means "not determinable"). -/
structure ch_compile_error_t where
  message : String
  expression : Int
deriving DecidableEq, Repr

/-- A heap assigning to each (non-null) pointer the diagnostic record it
refers to. -/
abbrev Heap : Type := Nat → ch_compile_error_t

/-- The owning handle `CompileError` declared by the `foreign_type!` macro in
`errors.rs`: it wraps exactly a raw pointer to a `ffi::ch_compile_error_t`. -/
structure CompileError where
  ptr : Nat
deriving DecidableEq, Repr

/-- `ForeignType::from_ptr`: wrap a raw pointer in an owning handle. -/
def CompileError.from_ptr (p : Nat) : CompileError := ⟨p⟩

/-- `ForeignType::as_ptr`: the raw pointer a handle wraps. -/
def CompileError.as_ptr (ce : CompileError) : Nat := ce.ptr

/-- `CompileError::message` (`errors.rs` lines 183-185): reads the `message`
C string of the underlying record and returns it as a `&str`, unmodified. -/
def CompileError.message (heap : Heap) (ce : CompileError) : String :=
  (heap ce.ptr).message

/-- `CompileError::expression` (`errors.rs` lines 188-196): reads the raw
`expression` field `n`; returns `None` when `n < 0`, else `Some (n as usize)`. -/
def CompileError.expression (heap : Heap) (ce : CompileError) : Option Nat :=
  let n := (heap ce.ptr).expression
  if n < 0 then none else some n.toNat

/-- `impl fmt::Display for CompileError` (`errors.rs` lines 156-160): writes
exactly `self.message()`. -/
def CompileError.display (heap : Heap) (ce : CompileError) : String :=
  CompileError.message heap ce

/-- `impl PartialEq for CompileError` (`errors.rs` lines 171-175): two handles
compare equal exactly when their raw pointers are identical. -/
def CompileError.beq (a b : CompileError) : Bool :=
  a.as_ptr == b.as_ptr

/-- The `Error` enum of `errors.rs` (the spec's `ErrorCode` taxonomy).
`Code raw` is the forward-compatibility fallback (the spec's
`UnknownCode(raw)`). -/
inductive Error where
  | Invalid
  | NoMem
  | ScanTerminated
  | CompileError (err : CompileError)
  | CompilerError
  | DbVersionError
  | DbPlatformError
  | DbModeError
  | BadAlign
  | BadAlloc
  | ScratchInUse
  | FailInternal
  | Code (raw : ch_error_t)
deriving DecidableEq, Repr

/-- `impl From<ffi::ch_error_t> for Error` (`errors.rs` lines 87-106): the
base translation. The match arm for `CH_COMPILER_ERROR` is commented out in
the source, so that code falls through to the `Code` fallback here as well. -/
def Error.from_code (err : ch_error_t) : Error :=
  if err = CH_INVALID then .Invalid
  else if err = CH_NOMEM then .NoMem
  else if err = CH_SCAN_TERMINATED then .ScanTerminated
  -- the arm `ffi::CH_COMPILER_ERROR => HsError::CompileError` is commented
  -- out in the source
  else if err = CH_DB_VERSION_ERROR then .DbVersionError
  else if err = CH_DB_PLATFORM_ERROR then .DbPlatformError
  else if err = CH_DB_MODE_ERROR then .DbModeError
  else if err = CH_BAD_ALIGN then .BadAlign
  else if err = CH_BAD_ALLOC then .BadAlloc
  else if err = CH_SCRATCH_IN_USE then .ScratchInUse
  else if err = CH_FAIL_INTERNAL then .FailInternal
  else .Code err

/-- Display text of each `Error` variant, as generated by the `thiserror`
attributes in `errors.rs` (the `{0}` of the `CompileError` variant formats the
record through `CompileError`'s own `Display`). -/
def Error.display (heap : Heap) : Error → String
  | .Invalid => "A parameter passed to this function was invalid."
  | .NoMem => "A memory allocation failed."
  | .ScanTerminated => "The engine was terminated by callback."
  | .CompileError ce =>
      "The pattern compiler failed with more detail, " ++
        CompileError.display heap ce ++ "."
  | .CompilerError => "he pattern compiler failed."
  | .DbVersionError => "he pattern compiler failed."
  | .DbPlatformError =>
      "The given database was built for a different platform (i.e., CPU type)."
  | .DbModeError =>
      "The given database was built for a different mode of operation."
  | .BadAlign => "A parameter passed to this function was not correctly aligned."
  | .BadAlloc =>
      "The memory allocator did not correctly return memory suitably aligned."
  | .ScratchInUse => "The scratch region was already in use."
  | .FailInternal => "Failed due to a fatal error"
  | .Code raw => "Unknown error code: " ++ toString raw

/-- `impl AsResult for ffi::ch_error_t` (`errors.rs` lines 130-141): `ok`
returns `Ok(())` on `CH_SUCCESS` and otherwise the translated error. The
`anyhow::Error` wrapper is transparent to the carried `Error` value, which is
what we model. -/
def AsResult.ok (self : ch_error_t) : Except Error Unit :=
  if self = CH_SUCCESS then .ok () else .error (Error.from_code self)

/-- `impl AsCompileResult for ffi::ch_error_t` (`errors.rs` lines 206-219):
`ok_or` receives the raw status and the diagnostic record pointer `err`. -/
def AsCompileResult.ok_or (self : ch_error_t) (err : Nat) : Except Error Unit :=
  if self = CH_SUCCESS then .ok ()
  else if self = CH_COMPILER_ERROR ∧ err ≠ 0 then
    .error (.CompileError (CompileError.from_ptr err))
  else .error (Error.from_code self)

/-- The recognized non-success sentinels and the named variant each one maps
to, transcribing the spec's correspondence table. -/
def recognized : List (ch_error_t × Error) :=
  [ (CH_INVALID, .Invalid)
  , (CH_NOMEM, .NoMem)
  , (CH_SCAN_TERMINATED, .ScanTerminated)
  , (CH_DB_VERSION_ERROR, .DbVersionError)
  , (CH_DB_PLATFORM_ERROR, .DbPlatformError)
  , (CH_DB_MODE_ERROR, .DbModeError)
  , (CH_BAD_ALIGN, .BadAlign)
  , (CH_BAD_ALLOC, .BadAlloc)
  , (CH_SCRATCH_IN_USE, .ScratchInUse)
  , (CH_FAIL_INTERNAL, .FailInternal) ]

instance : DecidableEq (Except Error Unit) := fun a b =>
  match a, b with
  | .ok (), .ok () => .isTrue rfl
  | .ok (), .error _ => .isFalse (fun h => (nomatch h))
  | .error _, .ok () => .isFalse (fun h => (nomatch h))
  | .error e, .error f =>
    match decEq e f with
    | .isTrue h => .isTrue (by rw [h])
    | .isFalse h => .isFalse (fun he => h (by injection he))

/-- Helper: on a code equal to none of the ten recognized sentinels, the base
translation falls through to the `Code` fallback. -/
theorem from_code_unrecognized (err : ch_error_t)
    (h1 : err ≠ CH_INVALID) (h2 : err ≠ CH_NOMEM) (h3 : err ≠ CH_SCAN_TERMINATED)
    (h4 : err ≠ CH_DB_VERSION_ERROR) (h5 : err ≠ CH_DB_PLATFORM_ERROR)
    (h6 : err ≠ CH_DB_MODE_ERROR) (h7 : err ≠ CH_BAD_ALIGN)
    (h8 : err ≠ CH_BAD_ALLOC) (h9 : err ≠ CH_SCRATCH_IN_USE)
    (h10 : err ≠ CH_FAIL_INTERNAL) :
    Error.from_code err = .Code err := by
  unfold Error.from_code
  rw [if_neg h1, if_neg h2, if_neg h3, if_neg h4, if_neg h5, if_neg h6, if_neg h7,
    if_neg h8, if_neg h9, if_neg h10]

/-- Helper: complete case analysis of the base translation, one disjunct per
match arm of the source plus the fallback. -/
theorem from_code_cases (err : ch_error_t) :
    (err = CH_INVALID ∧ Error.from_code err = .Invalid) ∨
    (err = CH_NOMEM ∧ Error.from_code err = .NoMem) ∨
    (err = CH_SCAN_TERMINATED ∧ Error.from_code err = .ScanTerminated) ∨
    (err = CH_DB_VERSION_ERROR ∧ Error.from_code err = .DbVersionError) ∨
    (err = CH_DB_PLATFORM_ERROR ∧ Error.from_code err = .DbPlatformError) ∨
    (err = CH_DB_MODE_ERROR ∧ Error.from_code err = .DbModeError) ∨
    (err = CH_BAD_ALIGN ∧ Error.from_code err = .BadAlign) ∨
    (err = CH_BAD_ALLOC ∧ Error.from_code err = .BadAlloc) ∨
    (err = CH_SCRATCH_IN_USE ∧ Error.from_code err = .ScratchInUse) ∨
    (err = CH_FAIL_INTERNAL ∧ Error.from_code err = .FailInternal) ∨
    (err ≠ CH_INVALID ∧ err ≠ CH_NOMEM ∧ err ≠ CH_SCAN_TERMINATED ∧
      err ≠ CH_DB_VERSION_ERROR ∧ err ≠ CH_DB_PLATFORM_ERROR ∧
      err ≠ CH_DB_MODE_ERROR ∧ err ≠ CH_BAD_ALIGN ∧ err ≠ CH_BAD_ALLOC ∧
      err ≠ CH_SCRATCH_IN_USE ∧ err ≠ CH_FAIL_INTERNAL ∧
      Error.from_code err = .Code err) := by
  by_cases h1 : err = CH_INVALID
  · exact Or.inl ⟨h1, by rw [h1]; decide⟩
  by_cases h2 : err = CH_NOMEM
  · exact Or.inr <| Or.inl ⟨h2, by rw [h2]; decide⟩
  by_cases h3 : err = CH_SCAN_TERMINATED
  · exact Or.inr <| Or.inr <| Or.inl ⟨h3, by rw [h3]; decide⟩
  by_cases h4 : err = CH_DB_VERSION_ERROR
  · exact Or.inr <| Or.inr <| Or.inr <| Or.inl ⟨h4, by rw [h4]; decide⟩
  by_cases h5 : err = CH_DB_PLATFORM_ERROR
  · exact Or.inr <| Or.inr <| Or.inr <| Or.inr <| Or.inl ⟨h5, by rw [h5]; decide⟩
  by_cases h6 : err = CH_DB_MODE_ERROR
  · exact Or.inr <| Or.inr <| Or.inr <| Or.inr <| Or.inr <| Or.inl
      ⟨h6, by rw [h6]; decide⟩
  by_cases h7 : err = CH_BAD_ALIGN
  · exact Or.inr <| Or.inr <| Or.inr <| Or.inr <| Or.inr <| Or.inr <| Or.inl
      ⟨h7, by rw [h7]; decide⟩
  by_cases h8 : err = CH_BAD_ALLOC
  · exact Or.inr <| Or.inr <| Or.inr <| Or.inr <| Or.inr <| Or.inr <| Or.inr <|
      Or.inl ⟨h8, by rw [h8]; decide⟩
  by_cases h9 : err = CH_SCRATCH_IN_USE
  · exact Or.inr <| Or.inr <| Or.inr <| Or.inr <| Or.inr <| Or.inr <| Or.inr <|
      Or.inr <| Or.inl ⟨h9, by rw [h9]; decide⟩
  by_cases h10 : err = CH_FAIL_INTERNAL
  · exact Or.inr <| Or.inr <| Or.inr <| Or.inr <| Or.inr <| Or.inr <| Or.inr <|
      Or.inr <| Or.inr <| Or.inl ⟨h10, by rw [h10]; decide⟩
  exact Or.inr <| Or.inr <| Or.inr <| Or.inr <| Or.inr <| Or.inr <| Or.inr <|
    Or.inr <| Or.inr <| Or.inr
      ⟨h1, h2, h3, h4, h5, h6, h7, h8, h9, h10,
        from_code_unrecognized err h1 h2 h3 h4 h5 h6 h7 h8 h9 h10⟩

/-- Helper: the base translation never produces the `CompileError` or
`CompilerError` variants. -/
theorem from_code_ne_compile (err : ch_error_t) :
    (∀ ce, Error.from_code err ≠ Error.CompileError ce) ∧
      Error.from_code err ≠ Error.CompilerError := by
  rcases from_code_cases err with ⟨-, e1⟩ | ⟨-, e2⟩ | ⟨-, e3⟩ | ⟨-, e4⟩ |
    ⟨-, e5⟩ | ⟨-, e6⟩ | ⟨-, e7⟩ | ⟨-, e8⟩ | ⟨-, e9⟩ | ⟨-, e10⟩ |
    ⟨-, -, -, -, -, -, -, -, -, -, e11⟩
  · rw [e1]; exact ⟨fun ce h => (nomatch h), fun h => (nomatch h)⟩
  · rw [e2]; exact ⟨fun ce h => (nomatch h), fun h => (nomatch h)⟩
  · rw [e3]; exact ⟨fun ce h => (nomatch h), fun h => (nomatch h)⟩
  · rw [e4]; exact ⟨fun ce h => (nomatch h), fun h => (nomatch h)⟩
  · rw [e5]; exact ⟨fun ce h => (nomatch h), fun h => (nomatch h)⟩
  · rw [e6]; exact ⟨fun ce h => (nomatch h), fun h => (nomatch h)⟩
  · rw [e7]; exact ⟨fun ce h => (nomatch h), fun h => (nomatch h)⟩
  · rw [e8]; exact ⟨fun ce h => (nomatch h), fun h => (nomatch h)⟩
  · rw [e9]; exact ⟨fun ce h => (nomatch h), fun h => (nomatch h)⟩
  · rw [e10]; exact ⟨fun ce h => (nomatch h), fun h => (nomatch h)⟩
  · rw [e11]; exact ⟨fun ce h => (nomatch h), fun h => (nomatch h)⟩

/-- Helper: looking up a code that equals none of the recognized sentinels in
the correspondence table yields nothing. -/
theorem lookup_recognized_none (err : ch_error_t)
    (h1 : err ≠ CH_INVALID) (h2 : err ≠ CH_NOMEM) (h3 : err ≠ CH_SCAN_TERMINATED)
    (h4 : err ≠ CH_DB_VERSION_ERROR) (h5 : err ≠ CH_DB_PLATFORM_ERROR)
    (h6 : err ≠ CH_DB_MODE_ERROR) (h7 : err ≠ CH_BAD_ALIGN)
    (h8 : err ≠ CH_BAD_ALLOC) (h9 : err ≠ CH_SCRATCH_IN_USE)
    (h10 : err ≠ CH_FAIL_INTERNAL) :
    recognized.lookup err = none := by
  have step : ∀ (k : ch_error_t) (v : Error) (es : List (ch_error_t × Error)),
      err ≠ k → List.lookup err ((k, v) :: es) = List.lookup err es := by
    intro k v es hk
    have hb : (err == k) = false := beq_eq_false_iff_ne.mpr hk
    simp [List.lookup, hb]
  unfold recognized
  rw [step _ _ _ h1, step _ _ _ h2, step _ _ _ h3, step _ _ _ h4, step _ _ _ h5,
    step _ _ _ h6, step _ _ _ h7, step _ _ _ h8, step _ _ _ h9, step _ _ _ h10]
  rfl

/-- C1: the base translation (`impl From<ffi::ch_error_t> for Error`) is total
and agrees everywhere with the recognized-sentinel correspondence table: each
recognized non-success sentinel maps to its exact named variant, and every
other integer maps to the `Code` (unknown-code) fallback carrying that
integer. -/
theorem from_code_matches_table (err : ch_error_t) :
    Error.from_code err = (recognized.lookup err).getD (Error.Code err) := by
  rcases from_code_cases err with ⟨g1, -⟩ | ⟨g2, -⟩ | ⟨g3, -⟩ | ⟨g4, -⟩ |
    ⟨g5, -⟩ | ⟨g6, -⟩ | ⟨g7, -⟩ | ⟨g8, -⟩ | ⟨g9, -⟩ | ⟨g10, -⟩ |
    ⟨h1, h2, h3, h4, h5, h6, h7, h8, h9, h10, e⟩
  · subst g1; decide
  · subst g2; decide
  · subst g3; decide
  · subst g4; decide
  · subst g5; decide
  · subst g6; decide
  · subst g7; decide
  · subst g8; decide
  · subst g9; decide
  · subst g10; decide
  · rw [e, lookup_recognized_none err h1 h2 h3 h4 h5 h6 h7 h8 h9 h10]
    rfl

/-- C2 counterexample: at the reserved compiler-error code with a null
diagnostic pointer, `ok_or` returns the unknown-code fallback
`Code CH_COMPILER_ERROR` (the `CH_COMPILER_ERROR` arm of the base translation
is commented out in the source), not the generic `CompilerError` variant. -/
theorem ok_or_null_diag_counterexample :
    AsCompileResult.ok_or CH_COMPILER_ERROR 0 =
        Except.error (Error.Code CH_COMPILER_ERROR) ∧
      AsCompileResult.ok_or CH_COMPILER_ERROR 0 ≠
        Except.error Error.CompilerError := by
  decide

/-- C2 (amended): `ok_or` returns the `CompileError` record variant exactly
when the raw code is the reserved compiler-error sentinel and the diagnostic
pointer is non-null; given the reserved code with a null pointer it does not
dereference the record but returns the unknown-code fallback
`Code CH_COMPILER_ERROR` rather than the generic compiler-failure variant. -/
theorem ok_or_compile_error_iff (self : ch_error_t) (ptr : Nat) :
    (AsCompileResult.ok_or self ptr =
        Except.error (Error.CompileError (CompileError.from_ptr ptr)) ↔
      self = CH_COMPILER_ERROR ∧ ptr ≠ 0) ∧
    ((∃ ce, AsCompileResult.ok_or self ptr =
        Except.error (Error.CompileError ce)) ↔
      self = CH_COMPILER_ERROR ∧ ptr ≠ 0) ∧
    AsCompileResult.ok_or CH_COMPILER_ERROR 0 =
      Except.error (Error.Code CH_COMPILER_ERROR) := by
  have hnc := (from_code_ne_compile self).1
  refine ⟨?_, ?_, by decide⟩
  · unfold AsCompileResult.ok_or
    split_ifs with hs hc
    · subst hs
      refine iff_of_false (fun h => (nomatch h)) ?_
      rintro ⟨hc, -⟩
      exact absurd hc (by decide)
    · exact iff_of_true rfl hc
    · refine iff_of_false ?_ hc
      intro h
      injection h with h2
      exact hnc _ h2
  · unfold AsCompileResult.ok_or
    split_ifs with hs hc
    · subst hs
      refine iff_of_false (fun hex => ?_) ?_
      · obtain ⟨ce, h⟩ := hex
        exact (nomatch h)
      · rintro ⟨hc, -⟩
        exact absurd hc (by decide)
    · exact iff_of_true ⟨CompileError.from_ptr ptr, rfl⟩ hc
    · refine iff_of_false (fun hex => ?_) hc
      obtain ⟨ce, h⟩ := hex
      injection h with h2
      exact hnc ce h2

/-- C3: both translation entry points, `AsResult::ok` and
`AsCompileResult::ok_or`, return `Ok(())` if and only if the raw code equals
the reserved success sentinel `CH_SUCCESS`; every other code yields an `Err`
carrying a translated `Error` value. -/
theorem ok_success_iff (err : ch_error_t) (ptr : Nat) :
    (AsResult.ok err = Except.ok () ↔ err = CH_SUCCESS) ∧
    (AsCompileResult.ok_or err ptr = Except.ok () ↔ err = CH_SUCCESS) ∧
    ((∃ e, AsResult.ok err = Except.error e) ↔ err ≠ CH_SUCCESS) ∧
    ((∃ e, AsCompileResult.ok_or err ptr = Except.error e) ↔ err ≠ CH_SUCCESS) := by
  unfold AsResult.ok AsCompileResult.ok_or
  by_cases hs : err = CH_SUCCESS
  · simp [hs]
  · rw [if_neg hs, if_neg hs]
    refine ⟨iff_of_false (fun h => (nomatch h)) hs, ?_, ?_, ?_⟩
    · split_ifs with hc
      · exact iff_of_false (fun h => (nomatch h)) hs
      · exact iff_of_false (fun h => (nomatch h)) hs
    · exact iff_of_true ⟨Error.from_code err, rfl⟩ hs
    · split_ifs with hc
      · exact iff_of_true ⟨Error.CompileError (CompileError.from_ptr ptr), rfl⟩ hs
      · exact iff_of_true ⟨Error.from_code err, rfl⟩ hs

/-- C4: the scan-terminated sentinel travels through the same `Result` error
channel as genuine failures: translating `CH_SCAN_TERMINATED` yields
`Err(ScanTerminated)`, and no other raw code maps to the `ScanTerminated`
variant, under either the base translation or `AsResult::ok`. -/
theorem scan_terminated_distinguished (err : ch_error_t) :
    AsResult.ok CH_SCAN_TERMINATED = Except.error Error.ScanTerminated ∧
    (Error.from_code err = Error.ScanTerminated ↔ err = CH_SCAN_TERMINATED) ∧
    (AsResult.ok err = Except.error Error.ScanTerminated ↔
      err = CH_SCAN_TERMINATED) := by
  have hiff : Error.from_code err = Error.ScanTerminated ↔
      err = CH_SCAN_TERMINATED := by
    rcases from_code_cases err with ⟨f1, -⟩ | ⟨f2, -⟩ | ⟨f3, -⟩ | ⟨f4, -⟩ |
      ⟨f5, -⟩ | ⟨f6, -⟩ | ⟨f7, -⟩ | ⟨f8, -⟩ | ⟨f9, -⟩ | ⟨f10, -⟩ |
      ⟨h1, h2, h3, h4, h5, h6, h7, h8, h9, h10, e⟩
    · subst f1; decide
    · subst f2; decide
    · subst f3; decide
    · subst f4; decide
    · subst f5; decide
    · subst f6; decide
    · subst f7; decide
    · subst f8; decide
    · subst f9; decide
    · subst f10; decide
    · rw [e]
      exact iff_of_false (fun h => (nomatch h)) h3
  refine ⟨by decide, hiff, ?_⟩
  unfold AsResult.ok
  by_cases hs : err = CH_SUCCESS
  · subst hs
    rw [if_pos rfl]
    exact iff_of_false (fun h => (nomatch h)) (by decide)
  · rw [if_neg hs]
    constructor
    · intro h
      injection h with h2
      exact hiff.mp h2
    · intro h
      rw [hiff.mpr h]

/-- C6: `CompileError::expression` returns `None` exactly when the raw
`expression` field of the underlying record is negative (the engine's
"not determinable" sentinel), and `Some n` with the same non-negative value
`n` otherwise. -/
theorem expression_negative_sentinel (heap : Heap) (ce : CompileError) :
    (CompileError.expression heap ce = none ↔ (heap ce.ptr).expression < 0) ∧
    (∀ n : Nat, CompileError.expression heap ce = some n ↔
      (heap ce.ptr).expression = (n : Int)) := by
  simp only [CompileError.expression]
  by_cases hr : (heap ce.ptr).expression < 0
  · rw [if_pos hr]
    refine ⟨iff_of_true rfl hr, fun n => ?_⟩
    constructor
    · intro h
      exact (nomatch h)
    · intro h
      omega
  · rw [if_neg hr]
    refine ⟨iff_of_false (fun h => (nomatch h)) hr, fun n => ?_⟩
    constructor
    · intro h
      injection h with h2
      omega
    · intro h
      have h2 : (heap ce.ptr).expression.toNat = n := by omega
      rw [h2]

/-- C7: `CompileError::message` and the `Display` implementation of
`CompileError` both produce exactly the message text stored in the underlying
engine diagnostic record, unmodified. -/
theorem message_preserved_verbatim (heap : Heap) (ce : CompileError) :
    CompileError.message heap ce = (heap ce.ptr).message ∧
    CompileError.display heap ce = (heap ce.ptr).message :=
  ⟨rfl, rfl⟩

/-- C8: equality of `CompileError` handles (`PartialEq`) holds if and only if
they wrap the identical underlying record pointer; handles whose records carry
equal message text but sit at distinct pointers compare unequal, as the two
concrete handles at pointers 1 and 2 of a constant heap show. -/
theorem compile_error_eq_by_identity (a b : CompileError) :
    (CompileError.beq a b = true ↔ a.as_ptr = b.as_ptr) ∧
    (∀ heap : Heap, CompileError.message heap a = CompileError.message heap b →
      a.as_ptr ≠ b.as_ptr → CompileError.beq a b = false) ∧
    (CompileError.message (fun _ => ⟨"same text", 0⟩) (CompileError.from_ptr 1) =
        CompileError.message (fun _ => ⟨"same text", 0⟩) (CompileError.from_ptr 2) ∧
      CompileError.beq (CompileError.from_ptr 1) (CompileError.from_ptr 2) =
        false) := by
  refine ⟨?_, ?_, rfl, by decide⟩
  · exact beq_iff_eq
  · intro heap _ hne
    exact beq_eq_false_iff_ne.mpr hne

/-- C9: whenever it is not the case that the raw code is the reserved
compiler-error sentinel with a non-null diagnostic pointer, `ok_or` produces
the same outcome as the base entry point `ok`; the base translation never
produces the `CompileError` or `CompilerError` variants, and the reserved code
without a usable diagnostic maps to the `Code` fallback. -/
theorem ok_or_refines_ok (self : ch_error_t) (ptr : Nat)
    (h : ¬(self = CH_COMPILER_ERROR ∧ ptr ≠ 0)) :
    AsCompileResult.ok_or self ptr = AsResult.ok self ∧
    (∀ e : ch_error_t, (∀ ce, Error.from_code e ≠ Error.CompileError ce) ∧
        Error.from_code e ≠ Error.CompilerError) ∧
    AsCompileResult.ok_or CH_COMPILER_ERROR 0 =
      Except.error (Error.Code CH_COMPILER_ERROR) := by
  refine ⟨?_, from_code_ne_compile, by decide⟩
  unfold AsCompileResult.ok_or AsResult.ok
  by_cases hs : self = CH_SUCCESS
  · rw [if_pos hs, if_pos hs]
  · rw [if_neg hs, if_neg hs, if_neg h]

/-- C9 witness: the refinement instantiated at the concrete pair
`(CH_INVALID, null)`. -/
theorem ok_or_refines_ok_witness :
    AsCompileResult.ok_or CH_INVALID 0 = AsResult.ok CH_INVALID ∧
    (∀ e : ch_error_t, (∀ ce, Error.from_code e ≠ Error.CompileError ce) ∧
        Error.from_code e ≠ Error.CompilerError) ∧
    AsCompileResult.ok_or CH_COMPILER_ERROR 0 =
      Except.error (Error.Code CH_COMPILER_ERROR) :=
  ok_or_refines_ok CH_INVALID 0 (by decide)

/-- C10: the `Display` text of the `DbVersionError` variant is the string
"he pattern compiler failed." — identical to the text of the generic
`CompilerError` variant — rather than a message about a database-version
mismatch. -/
theorem db_version_display_collision (heap : Heap) :
    Error.display heap Error.DbVersionError = "he pattern compiler failed." ∧
    Error.display heap Error.DbVersionError =
      Error.display heap Error.CompilerError :=
  ⟨rfl, rfl⟩

end Chimera
